import Mathlib

/-!
Verification development for the AI datacenter power analyzer.

The embedding covers (shallowly, over ℚ):
* the GPU workload power simulator
  (src/backend/app/services/gpu_simulator.py), and
* the KEPCO regional-suitability pipeline
  (src/backend/app/services/kepco_service.py and
   src/scripts/data_collection/kepco_power_analyzer.py).

Python floats are modelled as rationals; Python `round` and pandas
`.round` (both round-half-to-even) are modelled by `round_half_even`.
-/

namespace AIDCPower

/-- Round-half-to-even of a rational to an integer, as Python `round` and
numpy/pandas `.round` do. -/
def round_half_even (q : ℚ) : ℤ :=
  if q - ⌊q⌋ < 1/2 then ⌊q⌋
  else if 1/2 < q - ⌊q⌋ then ⌊q⌋ + 1
  else if ⌊q⌋ % 2 = 0 then ⌊q⌋ else ⌊q⌋ + 1

/-- `round(q, n)` in Python: round to `n` decimal places, ties to even. -/
def round_to (n : ℕ) (q : ℚ) : ℚ :=
  (round_half_even (q * 10 ^ n) : ℚ) / 10 ^ n

lemma le_round_half_even (q : ℚ) : ⌊q⌋ ≤ round_half_even q := by
  unfold round_half_even
  split_ifs <;> omega

lemma round_half_even_le (q : ℚ) : round_half_even q ≤ ⌊q⌋ + 1 := by
  unfold round_half_even
  split_ifs <;> omega

lemma round_half_even_mono {a b : ℚ} (h : a ≤ b) :
    round_half_even a ≤ round_half_even b := by
  have hf : ⌊a⌋ ≤ ⌊b⌋ := Int.floor_le_floor h
  rcases lt_or_eq_of_le hf with hlt | heq
  · have h1 := round_half_even_le a
    have h2 := le_round_half_even b
    omega
  · unfold round_half_even
    rw [← heq]
    have hab : a - (⌊a⌋ : ℚ) ≤ b - (⌊a⌋ : ℚ) := by linarith
    split_ifs <;> first | omega | linarith

lemma round_half_even_intCast (z : ℤ) : round_half_even (z : ℚ) = z := by
  unfold round_half_even
  rw [Int.floor_intCast]
  simp

lemma round_to_mono (n : ℕ) {a b : ℚ} (h : a ≤ b) :
    round_to n a ≤ round_to n b := by
  unfold round_to
  have hp : (0 : ℚ) < 10 ^ n := by positivity
  have hm : a * 10 ^ n ≤ b * 10 ^ n := by
    exact mul_le_mul_of_nonneg_right h (le_of_lt hp)
  have := round_half_even_mono hm
  exact div_le_div_of_nonneg_right (by exact_mod_cast this) (le_of_lt hp)

/-! ## GPU workload power simulator
(src/backend/app/services/gpu_simulator.py) -/

/-- `GPUType` enum (src/backend/app/models/gpu_models.py). -/
inductive GPUType
  | H200 | H100 | A100 | L40S | L40 | L4 | V100 | T4 | A30 | RTX_4090
deriving DecidableEq, Fintype, Repr

/-- `WorkloadType` enum (src/backend/app/models/gpu_models.py). -/
inductive WorkloadType
  | LLM_TRAINING | LLM_INFERENCE | COMPUTER_VISION
  | INFERENCE | STABLE_DIFFUSION | CUSTOM
deriving DecidableEq, Fintype, Repr

/-- The scalar part of `GPUSpecification` used by the simulator
(memory bandwidth and compute-capability strings are never read). -/
structure GPUSpecification where
  name : String
  architecture : String
  tdp_watts : ℚ
  cuda_cores : ℕ
  tensor_cores : ℕ
  memory_gb : ℚ
  ai_performance_tops : ℚ
  release_year : ℕ
deriving DecidableEq, Repr

/-- `GPUWorkloadSimulator._load_gpu_specifications`. -/
def gpu_specifications : GPUType → GPUSpecification
  | .H200 => ⟨"NVIDIA H200", "Hopper", 700, 16896, 456, 141, 1600, 2024⟩
  | .H100 => ⟨"NVIDIA H100", "Hopper", 700, 16896, 456, 80, 1000, 2022⟩
  | .A100 => ⟨"NVIDIA A100", "Ampere", 400, 6912, 432, 80, 624, 2020⟩
  | .L40S => ⟨"NVIDIA L40S", "Ada Lovelace", 350, 18176, 568, 48, 733, 2023⟩
  | .L40 => ⟨"NVIDIA L40", "Ada Lovelace", 300, 18176, 568, 48, 362, 2023⟩
  | .L4 => ⟨"NVIDIA L4", "Ada Lovelace", 72, 7424, 240, 24, 242, 2023⟩
  | .V100 => ⟨"NVIDIA V100", "Volta", 300, 5120, 640, 32, 125, 2017⟩
  | .T4 => ⟨"NVIDIA T4", "Turing", 70, 2560, 320, 16, 130, 2018⟩
  | .A30 => ⟨"NVIDIA A30", "Ampere", 165, 3584, 224, 24, 330, 2021⟩
  | .RTX_4090 => ⟨"NVIDIA RTX 4090", "Ada Lovelace", 450, 16384, 512, 24, 165, 2022⟩

/-- The `workload_efficiency` dict of `_calculate_power_efficiency`
(with the `.get(workload_type, 0.70)` default, which never fires:
the dict covers every `WorkloadType`). -/
def workload_efficiency : WorkloadType → ℚ
  | .LLM_TRAINING => 95/100
  | .LLM_INFERENCE => 60/100
  | .COMPUTER_VISION => 85/100
  | .INFERENCE => 60/100
  | .STABLE_DIFFUSION => 75/100
  | .CUSTOM => 70/100

/-- The `arch_bonus` dict of `_calculate_power_efficiency`, with the
`.get(architecture, 0.0)` default (Turing falls to the default 0). -/
def arch_bonus (architecture : String) : ℚ :=
  if architecture = "Hopper" then 5/100
  else if architecture = "Ada Lovelace" then 3/100
  else if architecture = "Ampere" then 2/100
  else if architecture = "Volta" then 0
  else 0

/-- The utilization band factor of `_calculate_power_efficiency`:
0.85 below 50 % utilization, 0.90 above 95 %, else 1.0. -/
def utilization_factor (utilization : ℚ) : ℚ :=
  if utilization < 50 then 85/100
  else if 95 < utilization then 90/100
  else 1

/-- `GPUWorkloadSimulator._calculate_power_efficiency`. -/
def calculate_power_efficiency
    (gpu_type : GPUType) (workload_type : WorkloadType) (utilization : ℚ) : ℚ :=
  (workload_efficiency workload_type
    + arch_bonus (gpu_specifications gpu_type).architecture)
    * utilization_factor utilization

/-- The nested `workload_scores` dict of `_calculate_efficiency_score`;
`none` models a missing entry (outer or inner `.get` miss). -/
def workload_scores (gpu_type : GPUType) (workload_type : WorkloadType) : Option ℚ :=
  match gpu_type, workload_type with
  | .H100, .LLM_TRAINING => some 95
  | .H100, .LLM_INFERENCE => some 90
  | .H100, .COMPUTER_VISION => some 85
  | .H100, .INFERENCE => some 90
  | .H100, .STABLE_DIFFUSION => some 80
  | .A100, .LLM_TRAINING => some 85
  | .A100, .LLM_INFERENCE => some 85
  | .A100, .COMPUTER_VISION => some 90
  | .A100, .INFERENCE => some 85
  | .A100, .STABLE_DIFFUSION => some 75
  | .L4, .LLM_TRAINING => some 60
  | .L4, .LLM_INFERENCE => some 95
  | .L4, .COMPUTER_VISION => some 80
  | .L4, .INFERENCE => some 95
  | .L4, .STABLE_DIFFUSION => some 85
  | _, _ => none

/-- `GPUWorkloadSimulator._calculate_efficiency_score` (the
`perf_per_watt` local of the source is computed but never used and is
omitted). -/
def calculate_efficiency_score
    (gpu_type : GPUType) (workload_type : WorkloadType) (utilization : ℚ) : ℚ :=
  let base_score := (workload_scores gpu_type workload_type).getD 70
  let utilization_score := max (100 - |85 - utilization| * (1/2)) 50
  (base_score + utilization_score) / 2

/-- `GPUWorkloadSimulator._estimate_temperature`. -/
def estimate_temperature (actual_power tdp : ℚ) : ℚ :=
  35 + actual_power / tdp * 45

/-- `WorkloadConfig` (src/backend/app/models/gpu_models.py), restricted
to the fields `simulate_workload_power` reads; defaults as in pydantic. -/
structure WorkloadConfig where
  gpu_type : GPUType
  workload_type : WorkloadType
  utilization : ℚ := 85
  duration_hours : ℚ := 1
  custom_tdp : Option ℚ := none
deriving DecidableEq, Repr

/-- `config.get('custom_tdp') or gpu_spec.tdp_watts`: Python `or` falls
through on the falsy float `0.0` as well as on `None`. -/
def base_tdp (config : WorkloadConfig) : ℚ :=
  match config.custom_tdp with
  | some t => if t = 0 then (gpu_specifications config.gpu_type).tdp_watts else t
  | none => (gpu_specifications config.gpu_type).tdp_watts

/-- `actual_power_watts = base_tdp * power_efficiency * (utilization / 100)`. -/
def actual_power_watts (config : WorkloadConfig) : ℚ :=
  base_tdp config
    * calculate_power_efficiency config.gpu_type config.workload_type config.utilization
    * (config.utilization / 100)

def power_cost_per_kwh : ℚ := 12/100

def carbon_factor : ℚ := 4571/10000

/-- Result dict of `simulate_workload_power` (numeric fields). -/
structure SimOutput where
  gpu_type : GPUType
  workload_type : WorkloadType
  hourly_power_kw : ℚ
  total_energy_kwh : ℚ
  cost_estimate_usd : ℚ
  efficiency_score : ℚ
  carbon_footprint_kg : ℚ
  utilization_actual : ℚ
  temperature_estimate_c : ℚ
deriving DecidableEq, Repr

/-- `GPUWorkloadSimulator.simulate_workload_power`. -/
def simulate_workload_power (config : WorkloadConfig) : SimOutput :=
  let gpu_spec := gpu_specifications config.gpu_type
  let power := actual_power_watts config
  let hourly_power_kw := power / 1000
  let total_energy_kwh := hourly_power_kw * config.duration_hours
  let cost_estimate := total_energy_kwh * power_cost_per_kwh
  let carbon_footprint := total_energy_kwh * carbon_factor
  let efficiency_score :=
    calculate_efficiency_score config.gpu_type config.workload_type config.utilization
  let temperature_estimate := estimate_temperature power gpu_spec.tdp_watts
  { gpu_type := config.gpu_type
    workload_type := config.workload_type
    hourly_power_kw := round_to 3 hourly_power_kw
    total_energy_kwh := round_to 3 total_energy_kwh
    cost_estimate_usd := round_to 2 cost_estimate
    efficiency_score := round_to 1 efficiency_score
    carbon_footprint_kg := round_to 2 carbon_footprint
    utilization_actual := round_to 1 config.utilization
    temperature_estimate_c := round_to 1 temperature_estimate }

/-! ## KEPCO data service
(src/backend/app/services/kepco_service.py)

`get_regional_power_consumption` returns a heterogeneous Python dict
(metadata keys plus a nested `"regions"` dict), so Python values are
modelled explicitly. -/

/-- A Python value as handled by the KEPCO service: strings, numbers,
booleans and string-keyed dicts. -/
inductive PyValue
  | str (s : String)
  | num (q : ℚ)
  | pybool (b : Bool)
  | dict (entries : List (String × PyValue))

/-- Key lookup in a Python dict body (first match). -/
def pv_lookup : List (String × PyValue) → String → Option PyValue
  | [], _ => none
  | (k, v) :: rest, key => if k = key then some v else pv_lookup rest key

/-- Python `key in value` for a dict (membership among its keys). -/
def pv_has_key : PyValue → String → Bool
  | .dict es, key => (pv_lookup es key).isSome
  | _, _ => false

/-- Python runtime errors surfaced by the service code. -/
inductive PyErr
  | valueError (msg : String)
  | keyError (key : String)
  | typeError (key : String)

/-- Python subscript `value[key]`: `KeyError` on a missing dict key,
`TypeError` when the value is not a dict. -/
def pv_subscript : PyValue → String → Except PyErr PyValue
  | .dict es, key =>
    match pv_lookup es key with
    | some v => .ok v
    | none => .error (.keyError key)
  | _, key => .error (.typeError key)

/-- Coerce a Python value to a number (arithmetic on a non-number is a
`TypeError`). -/
def pv_num : PyValue → Except PyErr ℚ
  | .num q => .ok q
  | _ => .error (.typeError "not a number")

/-- The response shape shared by both branches of
`get_regional_power_consumption`: fixed metadata keys plus the
per-region dict. `last_updated` is a wall-clock string in the source. -/
def regional_result (year : ℚ) (total : ℚ) (source : String)
    (regions : List (String × PyValue)) : PyValue :=
  .dict [("status", .str "success"),
         ("year", .num year),
         ("total_regions", .num total),
         ("data_source", .str source),
         ("last_updated", .str "now"),
         ("regions", .dict regions)]

/-- The two fixed region entries of `_get_simulated_regional_data`. -/
def simulated_regions : List (String × PyValue) :=
  [("서울특별시", .dict
      [("region_name", .str "서울특별시"),
       ("current_consumption_mwh", .num 180000),
       ("average_price_krw_kwh", .num (14824/100)),
       ("monthly_cost_krw", .num 26663425246),
       ("supply_capacity_mwh", .num 216000),
       ("grid_stability", .str "stable")]),
   ("경기도", .dict
      [("region_name", .str "경기도"),
       ("current_consumption_mwh", .num 362000),
       ("average_price_krw_kwh", .num (14958/100)),
       ("monthly_cost_krw", .num 54257388598),
       ("supply_capacity_mwh", .num 434000),
       ("grid_stability", .str "stable")])]

/-- `KEPCODataService._get_simulated_regional_data` (the backup snapshot
used when no analysis CSV is available). -/
def get_simulated_regional_data : PyValue :=
  regional_result 2024 17 "simulation" simulated_regions

/-- `KEPCODataService.analyze_datacenter_impact`.  The guard
`if location not in regional_data` tests membership among the TOP-LEVEL
keys of the `get_regional_power_consumption` response (not among its
`"regions"` sub-dict), and the subsequent item accesses use the keys
`total_consumption_mwh` / `supply_capacity_mw`, which no region entry
carries.  (`recommended_actions` calls `self._get_recommendations`,
which is not defined anywhere in the repository; the call is
unreachable, and the key is omitted here.) -/
def analyze_datacenter_impact (regional_data : PyValue) (location : String)
    (datacenter_power_mw : ℚ) : Except PyErr PyValue :=
  if ¬ pv_has_key regional_data location then
    .error (.valueError ("지원하지 않는 지역: " ++ location))
  else do
    let region_info ← pv_subscript regional_data location
    let total_consumption ← pv_num (← pv_subscript region_info "total_consumption_mwh")
    let current_consumption := total_consumption / 8760
    let supply_capacity ← pv_num (← pv_subscript region_info "supply_capacity_mw")
    let load_increase_percent := datacenter_power_mw / current_consumption * 100
    let remaining_capacity := supply_capacity - current_consumption - datacenter_power_mw
    let capacity_utilization :=
      (current_consumption + datacenter_power_mw) / supply_capacity * 100
    let risk_level :=
      if 90 < capacity_utilization then "높음"
      else if 80 < capacity_utilization then "보통"
      else "낮음"
    .ok (.dict
      [("location", .str location),
       ("datacenter_power_mw", .num datacenter_power_mw),
       ("current_consumption_mw", .num (round_to 1 current_consumption)),
       ("supply_capacity_mw", .num supply_capacity),
       ("load_increase_percent", .num (round_to 2 load_increase_percent)),
       ("remaining_capacity_mw", .num (round_to 1 remaining_capacity)),
       ("capacity_utilization_percent", .num (round_to 1 capacity_utilization)),
       ("grid_stability_risk", .str risk_level),
       ("infrastructure_upgrade_needed", .pybool (decide (85 < capacity_utilization)))])

/-- One row of the comprehensive analysis table
(`regional_power_comprehensive_analysis.csv`), restricted to the columns
`find_optimal_datacenter_locations` reads. -/
structure ComprehensiveRow where
  usage_kwh : ℚ
  avg_price_krw_kwh : ℚ
  infra_score : ℚ
  cost_score : ℚ
  overall_score : ℚ
  datacenter_grade : String
  eff_ranking : ℤ
deriving DecidableEq, Repr

/-- The candidate dict built per region by the real-data branch of
`KEPCODataService.find_optimal_datacenter_locations`. -/
def candidate_of (required_power_mw : ℚ) (entry : String × ComprehensiveRow) : PyValue :=
  let region := entry.1
  let row := entry.2
  let current_mw := row.usage_kwh / 1000 / 8760
  let supply_capacity := current_mw * (12/10)
  let remaining_capacity := supply_capacity - current_mw
  let load_increase_percent :=
    if 0 < current_mw then required_power_mw / current_mw * 100 else 0
  .dict
    [("region", .str region),
     ("overall_efficiency_score", .num row.overall_score),
     ("infrastructure_score", .num row.infra_score),
     ("cost_efficiency_score", .num row.cost_score),
     ("datacenter_grade", .str row.datacenter_grade),
     ("power_cost_krw_kwh", .num row.avg_price_krw_kwh),
     ("current_consumption_mw", .num (round_to 1 current_mw)),
     ("supply_capacity_mw", .num (round_to 1 supply_capacity)),
     ("remaining_capacity_mw", .num (round_to 1 remaining_capacity)),
     ("load_increase_percent", .num (round_to 2 load_increase_percent)),
     ("capacity_adequate", .pybool (decide (required_power_mw < remaining_capacity))),
     ("grid_stability", .str (if 50 < row.overall_score then "stable" else "moderate")),
     ("recommended", .pybool (decide (70 ≤ row.overall_score))),
     ("annual_power_cost_krw", .num (required_power_mw * 8760 * row.avg_price_krw_kwh)),
     ("ranking", .num row.eff_ranking)]

/-- Sort key of `candidates.sort(key=..., reverse=True)`:
the candidate's `overall_efficiency_score`. -/
def candidate_overall (c : PyValue) : ℚ :=
  match c with
  | .dict es =>
    match pv_lookup es "overall_efficiency_score" with
    | some (.num q) => q
    | _ => 0
  | _ => 0

/-- `KEPCODataService._get_simulated_optimal_locations`: a fixed
two-entry backup list, truncated to `top_n`. -/
def get_simulated_optimal_locations (required_power_mw : ℚ) (top_n : ℕ) :
    List PyValue :=
  ([.dict
      [("region", .str "세종특별자치시"),
       ("overall_efficiency_score", .num (755/10)),
       ("infrastructure_score", .num 65),
       ("cost_efficiency_score", .num 85),
       ("datacenter_grade", .str "A급 (우수)"),
       ("power_cost_krw_kwh", .num (14267/100)),
       ("remaining_capacity_mw", .num 150),
       ("recommended", .pybool true)],
    .dict
      [("region", .str "대전광역시"),
       ("overall_efficiency_score", .num (723/10)),
       ("infrastructure_score", .num 70),
       ("cost_efficiency_score", .num 78),
       ("datacenter_grade", .str "A급 (우수)"),
       ("power_cost_krw_kwh", .num (14646/100)),
       ("remaining_capacity_mw", .num 120),
       ("recommended", .pybool true)]] : List PyValue).take top_n

/-- `KEPCODataService.find_optimal_datacenter_locations`: with a
non-empty comprehensive table, build a candidate per region, sort by
overall efficiency score descending and take the first `top_n`; with an
empty table, return the simulated backup list. -/
def find_optimal_datacenter_locations
    (comprehensive_data : List (String × ComprehensiveRow))
    (required_power_mw : ℚ) (top_n : ℕ) : List PyValue :=
  if comprehensive_data ≠ [] then
    ((comprehensive_data.map (candidate_of required_power_mw)).mergeSort
        (fun a b => decide (candidate_overall b ≤ candidate_overall a))).take top_n
  else
    get_simulated_optimal_locations required_power_mw top_n

/-! ## Regional scoring pipeline
(src/scripts/data_collection/kepco_power_analyzer.py) -/

/-- One row of the per-region aggregate produced by
`analyze_regional_power_usage`'s groupby (only the columns read by the
later steps are kept). -/
structure RegionalStat where
  region : String
  usage_kwh : ℚ
  avg_price_krw_kwh : ℚ
deriving DecidableEq, Repr

/-- `data['사용량kWh'].max()` (pandas column max; all usages in the
pipeline are non-negative). -/
def max_usage (rows : List RegionalStat) : ℚ :=
  (rows.map (·.usage_kwh)).foldr max 0

/-- `data['평균판매단가원kWh'].max()`. -/
def max_price (rows : List RegionalStat) : ℚ :=
  (rows.map (·.avg_price_krw_kwh)).foldr max 0

/-- `KEPCOPowerAnalyzer.analyze_regional_power_usage`, steps after the
aggregation: sort by usage descending, assign ranks `1..N`, then drop
zero-usage regions. -/
def usage_rank_table (rows : List RegionalStat) : List (RegionalStat × ℕ) :=
  let sorted := rows.mergeSort (fun a b => decide (b.usage_kwh ≤ a.usage_kwh))
  (sorted.zip (List.range' 1 sorted.length)).filter
    (fun p => decide (0 < p.1.usage_kwh))

/-- A row of the analyzer's scored table with the three derived score
columns of `KEPCOPowerAnalyzer.find_optimal_datacenter_locations`. -/
structure ScoredRegion where
  region : String
  usage_kwh : ℚ
  avg_price_krw_kwh : ℚ
  infra_score : ℚ
  cost_score : ℚ
  overall_score : ℚ
deriving DecidableEq, Repr

/-- `data['종합효율점수'] = (인프라점수*0.4 + 비용효율점수*0.6).round(2)`. -/
def overall_efficiency_score (infra cost : ℚ) : ℚ :=
  round_to 2 (infra * (4/10) + cost * (6/10))

/-- The score columns added by the analyzer's
`find_optimal_datacenter_locations`:
infrastructure score `usage / max_usage * 100` (rounded to 2),
cost-efficiency score `(max_price - price) / max_price * 100`
(rounded to 2) and the weighted overall score. -/
def score_regions_table (rows : List RegionalStat) : List ScoredRegion :=
  rows.map fun r =>
    let infra := round_to 2 (r.usage_kwh / max_usage rows * 100)
    let cost :=
      round_to 2 ((max_price rows - r.avg_price_krw_kwh) / max_price rows * 100)
    { region := r.region
      usage_kwh := r.usage_kwh
      avg_price_krw_kwh := r.avg_price_krw_kwh
      infra_score := infra
      cost_score := cost
      overall_score := overall_efficiency_score infra cost }

/-- The analyzer then sorts by overall score descending and assigns
`data['효율성순위'] = range(1, len(data)+1)`. -/
def efficiency_rank_table (rows : List RegionalStat) : List (ScoredRegion × ℕ) :=
  let sorted := (score_regions_table rows).mergeSort
    (fun a b => decide (b.overall_score ≤ a.overall_score))
  sorted.zip (List.range' 1 sorted.length)

/-- `get_datacenter_grade` (nested in the analyzer's
`find_optimal_datacenter_locations`). -/
def get_datacenter_grade (score : ℚ) : String :=
  if 80 ≤ score then "S급 (최적)"
  else if 70 ≤ score then "A급 (우수)"
  else if 60 ≤ score then "B급 (양호)"
  else if 50 ≤ score then "C급 (보통)"
  else "D급 (부적합)"

/-! ## Evaluation lemmas for rounding -/

/-- Evaluate `round_to` when the scaled value sits strictly below the
half-way point above `z`. -/
lemma round_to_eq_low (n : ℕ) (q : ℚ) (z : ℤ)
    (h1 : (z:ℚ) ≤ q * 10 ^ n) (h2 : q * 10 ^ n - z < 1/2) :
    round_to n q = (z:ℚ) / 10 ^ n := by
  have hz : ⌊q * 10 ^ n⌋ = z := Int.floor_eq_iff.2 ⟨h1, by linarith⟩
  unfold round_to round_half_even
  rw [hz, if_pos h2]

/-! ## Helper lemmas for the GPU power model -/

lemma workload_arch_le_one (g : GPUType) (w : WorkloadType) :
    workload_efficiency w + arch_bonus (gpu_specifications g).architecture ≤ 1 := by
  cases g <;> cases w <;>
    simp [workload_efficiency, arch_bonus, gpu_specifications] <;> norm_num

lemma workload_arch_nonneg (g : GPUType) (w : WorkloadType) :
    0 ≤ workload_efficiency w + arch_bonus (gpu_specifications g).architecture := by
  cases g <;> cases w <;>
    simp [workload_efficiency, arch_bonus, gpu_specifications] <;> norm_num

lemma utilization_factor_le_one (u : ℚ) : utilization_factor u ≤ 1 := by
  unfold utilization_factor; split_ifs <;> norm_num

lemma utilization_factor_nonneg (u : ℚ) : 0 ≤ utilization_factor u := by
  unfold utilization_factor; split_ifs <;> norm_num

lemma power_efficiency_le_one (g : GPUType) (w : WorkloadType) (u : ℚ) :
    calculate_power_efficiency g w u ≤ 1 := by
  unfold calculate_power_efficiency
  have h1 := workload_arch_le_one g w
  have h2 := workload_arch_nonneg g w
  have h3 := utilization_factor_le_one u
  have h4 := utilization_factor_nonneg u
  nlinarith

lemma power_efficiency_nonneg (g : GPUType) (w : WorkloadType) (u : ℚ) :
    0 ≤ calculate_power_efficiency g w u :=
  mul_nonneg (workload_arch_nonneg g w) (utilization_factor_nonneg u)

lemma tdp_pos (g : GPUType) : 0 < (gpu_specifications g).tdp_watts := by
  cases g <;> norm_num [gpu_specifications]

lemma simulate_hourly (c : WorkloadConfig) :
    (simulate_workload_power c).hourly_power_kw
      = round_to 3 (actual_power_watts c / 1000) := rfl

lemma simulate_total (c : WorkloadConfig) :
    (simulate_workload_power c).total_energy_kwh
      = round_to 3 (actual_power_watts c / 1000 * c.duration_hours) := rfl

lemma simulate_temperature (c : WorkloadConfig) :
    (simulate_workload_power c).temperature_estimate_c
      = round_to 1 (estimate_temperature (actual_power_watts c)
          (gpu_specifications c.gpu_type).tdp_watts) := rfl

/-! ## Claim theorems: GPU power model -/

/-- Claim C1: the power-efficiency coefficient is at most 1 for every
(GPU, workload, utilization), and for every configuration with
utilization in [0,100] and a non-negative resolved TDP the actual power
`resolved TDP x coefficient x utilization/100` never exceeds the
resolved TDP (custom override when present, else the catalog TDP). -/
theorem C1_actual_power_le_resolved_tdp :
    (∀ (g : GPUType) (w : WorkloadType) (u : ℚ),
        calculate_power_efficiency g w u ≤ 1)
    ∧ ∀ (c : WorkloadConfig), 0 ≤ c.utilization → c.utilization ≤ 100 →
        0 ≤ base_tdp c → actual_power_watts c ≤ base_tdp c := by
  constructor
  · exact fun g w u => power_efficiency_le_one g w u
  · intro c h0 h100 htdp
    have he1 := power_efficiency_le_one c.gpu_type c.workload_type c.utilization
    have he0 := power_efficiency_nonneg c.gpu_type c.workload_type c.utilization
    have hu1 : c.utilization / 100 ≤ 1 := by linarith
    have hu0 : 0 ≤ c.utilization / 100 := div_nonneg h0 (by norm_num)
    have hx : calculate_power_efficiency c.gpu_type c.workload_type c.utilization
        * (c.utilization / 100) ≤ 1 := mul_le_one₀ he1 hu0 hu1
    calc actual_power_watts c
        = base_tdp c * (calculate_power_efficiency c.gpu_type c.workload_type
            c.utilization * (c.utilization / 100)) := by
          unfold actual_power_watts; ring
      _ ≤ base_tdp c * 1 := mul_le_mul_of_nonneg_left hx htdp
      _ = base_tdp c := mul_one _

/-- Witness for C1 at the A100 / LLM-training configuration with
utilization 80 %. -/
theorem C1_actual_power_le_resolved_tdp_witness :
    calculate_power_efficiency .A100 .LLM_TRAINING 80 ≤ 1
    ∧ actual_power_watts ⟨.A100, .LLM_TRAINING, 80, 1, none⟩
        ≤ base_tdp ⟨.A100, .LLM_TRAINING, 80, 1, none⟩ :=
  ⟨C1_actual_power_le_resolved_tdp.1 .A100 .LLM_TRAINING 80,
   C1_actual_power_le_resolved_tdp.2 ⟨.A100, .LLM_TRAINING, 80, 1, none⟩
     (by norm_num) (by norm_num) (by norm_num [base_tdp, gpu_specifications])⟩

/-- Claim C4: for GPU A100, workload llm_training, utilization 80,
duration 1 h and no TDP override, the coefficient is
(0.95 + 0.02) x 1.0 = 0.97, the actual power is 400 x 0.97 x 0.8
= 310.4 W, and both `hourly_power_kw` and `total_energy_kwh` round to
0.310. -/
theorem C4_a100_training_example :
    calculate_power_efficiency .A100 .LLM_TRAINING 80 = 97/100
    ∧ actual_power_watts ⟨.A100, .LLM_TRAINING, 80, 1, none⟩ = 1552/5
    ∧ (simulate_workload_power ⟨.A100, .LLM_TRAINING, 80, 1, none⟩).hourly_power_kw
        = 31/100
    ∧ (simulate_workload_power ⟨.A100, .LLM_TRAINING, 80, 1, none⟩).total_energy_kwh
        = 31/100 := by
  have heff : calculate_power_efficiency .A100 .LLM_TRAINING 80 = 97/100 := by
    simp [calculate_power_efficiency, workload_efficiency, arch_bonus,
      gpu_specifications, utilization_factor]
    try norm_num
  have hp : actual_power_watts ⟨.A100, .LLM_TRAINING, 80, 1, none⟩ = 1552/5 := by
    norm_num [actual_power_watts, base_tdp, heff, gpu_specifications]
  have hr : round_to 3 ((1552:ℚ)/5/1000) = 31/100 := by
    have h := round_to_eq_low 3 ((1552:ℚ)/5/1000) 310 (by norm_num) (by norm_num)
    rw [h]; norm_num
  refine ⟨heff, hp, ?_, ?_⟩
  · rw [simulate_hourly, hp]; exact hr
  · rw [simulate_total, hp]
    show round_to 3 ((1552:ℚ)/5/1000 * 1) = 31/100
    rw [mul_one]; exact hr

lemma workload_scores_ge (g : GPUType) (w : WorkloadType) :
    (60:ℚ) ≤ (workload_scores g w).getD 70 := by
  cases g <;> cases w <;> norm_num [workload_scores]

lemma workload_scores_le (g : GPUType) (w : WorkloadType) :
    (workload_scores g w).getD 70 ≤ (95:ℚ) := by
  cases g <;> cases w <;> norm_num [workload_scores]

/-- Claim C5: for every (GPU, workload) pair and utilization in [0,100],
the efficiency score equals the average of the suitability score
(default 70) and max(50, 100 − 0.5·|85 − utilization|), and lies in
[0,100]. -/
theorem C5_efficiency_score_bounds :
    ∀ (g : GPUType) (w : WorkloadType) (u : ℚ), 0 ≤ u → u ≤ 100 →
      calculate_efficiency_score g w u
        = ((workload_scores g w).getD 70 + max (100 - |85 - u| * (1/2)) 50) / 2
      ∧ 0 ≤ calculate_efficiency_score g w u
      ∧ calculate_efficiency_score g w u ≤ 100 := by
  intro g w u h0 h100
  have hS : calculate_efficiency_score g w u
      = ((workload_scores g w).getD 70 + max (100 - |85 - u| * (1/2)) 50) / 2 := rfl
  have hb1 := workload_scores_ge g w
  have hb2 := workload_scores_le g w
  have hu_lo : (50:ℚ) ≤ max (100 - |85 - u| * (1/2)) 50 := le_max_right _ _
  have hu_hi : max (100 - |85 - u| * (1/2)) 50 ≤ 100 := by
    apply max_le
    · have := abs_nonneg (85 - u); linarith
    · norm_num
  refine ⟨hS, ?_, ?_⟩ <;> rw [hS] <;> linarith

/-- Witness for C5 at (H100, LLM-training, utilization 85). -/
theorem C5_efficiency_score_bounds_witness :
    calculate_efficiency_score .H100 .LLM_TRAINING 85
      = ((workload_scores .H100 .LLM_TRAINING).getD 70
          + max (100 - |85 - (85:ℚ)| * (1/2)) 50) / 2
    ∧ 0 ≤ calculate_efficiency_score .H100 .LLM_TRAINING 85
    ∧ calculate_efficiency_score .H100 .LLM_TRAINING 85 ≤ 100 :=
  C5_efficiency_score_bounds .H100 .LLM_TRAINING 85 (by norm_num) (by norm_num)

/-- Claim C9: the simulator's temperature estimate is
round(35 + 45·(actual power / catalog TDP), 1) — the divisor is the
catalog TDP even under a custom_tdp override; with no override and
utilization in [0,100] the estimate stays in [35, 80], while some
custom_tdp above the catalog TDP pushes it past 80 °C. -/
theorem C9_temperature_model :
    (∀ c : WorkloadConfig,
        (simulate_workload_power c).temperature_estimate_c
          = round_to 1 (estimate_temperature (actual_power_watts c)
              (gpu_specifications c.gpu_type).tdp_watts))
    ∧ (∀ (g : GPUType) (w : WorkloadType) (u : ℚ), 0 ≤ u → u ≤ 100 →
        35 ≤ (simulate_workload_power ⟨g, w, u, 1, none⟩).temperature_estimate_c
        ∧ (simulate_workload_power ⟨g, w, u, 1, none⟩).temperature_estimate_c ≤ 80)
    ∧ (∃ t : ℚ, (gpu_specifications .A100).tdp_watts < t
        ∧ 80 < (simulate_workload_power
            ⟨.A100, .LLM_TRAINING, 80, 1, some t⟩).temperature_estimate_c) := by
  refine ⟨fun c => rfl, ?_, ⟨800, by norm_num [gpu_specifications], ?_⟩⟩
  case refine_2 =>
    have hp : actual_power_watts ⟨.A100, .LLM_TRAINING, 80, 1, some 800⟩
        = 3104/5 := by
      simp [actual_power_watts, base_tdp, calculate_power_efficiency,
        workload_efficiency, arch_bonus, gpu_specifications, utilization_factor]
      try norm_num
    rw [simulate_temperature, hp]
    have he : estimate_temperature ((3104:ℚ)/5)
        (gpu_specifications GPUType.A100).tdp_watts = 2621/25 := by
      norm_num [estimate_temperature, gpu_specifications]
    rw [he]
    have h := round_to_eq_low 1 ((2621:ℚ)/25) 1048 (by norm_num) (by norm_num)
    rw [h]; norm_num
  intro g w u h0 h100
  have hT := tdp_pos g
  have he1 := power_efficiency_le_one g w u
  have he0 := power_efficiency_nonneg g w u
  have hu1 : u / 100 ≤ 1 := by linarith
  have hu0 : 0 ≤ u / 100 := div_nonneg h0 (by norm_num)
  have hp : actual_power_watts ⟨g, w, u, 1, none⟩
      = (gpu_specifications g).tdp_watts
        * (calculate_power_efficiency g w u * (u / 100)) := by
    unfold actual_power_watts base_tdp; ring
  have hratio : actual_power_watts ⟨g, w, u, 1, none⟩
      / (gpu_specifications g).tdp_watts
      = calculate_power_efficiency g w u * (u / 100) := by
    rw [hp, mul_div_cancel_left₀ _ (ne_of_gt hT)]
  have hx1 : calculate_power_efficiency g w u * (u / 100) ≤ 1 :=
    mul_le_one₀ he1 hu0 hu1
  have hx0 : 0 ≤ calculate_power_efficiency g w u * (u / 100) :=
    mul_nonneg he0 hu0
  have hraw_lo : (35:ℚ) ≤ estimate_temperature
      (actual_power_watts ⟨g, w, u, 1, none⟩) (gpu_specifications g).tdp_watts := by
    unfold estimate_temperature; rw [hratio]; nlinarith
  have hraw_hi : estimate_temperature
      (actual_power_watts ⟨g, w, u, 1, none⟩) (gpu_specifications g).tdp_watts
      ≤ 80 := by
    unfold estimate_temperature; rw [hratio]; nlinarith
  have hfield : (simulate_workload_power ⟨g, w, u, 1, none⟩).temperature_estimate_c
      = round_to 1 (estimate_temperature (actual_power_watts ⟨g, w, u, 1, none⟩)
          (gpu_specifications g).tdp_watts) := rfl
  have h35 : round_to 1 (35:ℚ) = 35 := by
    have h := round_to_eq_low 1 (35:ℚ) 350 (by norm_num) (by norm_num)
    rw [h]; norm_num
  have h80 : round_to 1 (80:ℚ) = 80 := by
    have h := round_to_eq_low 1 (80:ℚ) 800 (by norm_num) (by norm_num)
    rw [h]; norm_num
  constructor
  · rw [hfield, ← h35]; exact round_to_mono 1 hraw_lo
  · rw [hfield, ← h80]; exact round_to_mono 1 hraw_hi

/-- Witness for C9 at (A100, LLM-training, utilization 80). -/
theorem C9_temperature_model_witness :
    35 ≤ (simulate_workload_power
        ⟨.A100, .LLM_TRAINING, 80, 1, none⟩).temperature_estimate_c
    ∧ (simulate_workload_power
        ⟨.A100, .LLM_TRAINING, 80, 1, none⟩).temperature_estimate_c ≤ 80 :=
  C9_temperature_model.2.1 .A100 .LLM_TRAINING 80 (by norm_num) (by norm_num)

lemma round_half_even_one : round_half_even (1:ℚ) = 1 := by
  unfold round_half_even
  rw [Int.floor_one]
  norm_num

lemma round_to_pos (n : ℕ) {q : ℚ} (h : 1 ≤ q * 10 ^ n) :
    0 < round_to n q := by
  have h1 : round_half_even 1 ≤ round_half_even (q * 10 ^ n) :=
    round_half_even_mono h
  rw [round_half_even_one] at h1
  unfold round_to
  have h2 : (0:ℚ) < (round_half_even (q * 10 ^ n) : ℚ) := by
    exact_mod_cast lt_of_lt_of_le Int.zero_lt_one h1
  exact div_pos h2 (by positivity)

lemma hourly_pos_85 (g : GPUType) (w : WorkloadType) :
    0 < (simulate_workload_power ⟨g, w, 85, 1, some 0⟩).hourly_power_kw := by
  rw [simulate_hourly]
  apply round_to_pos
  cases g <;> cases w <;>
    simp [actual_power_watts, base_tdp, calculate_power_efficiency,
      workload_efficiency, arch_bonus, gpu_specifications, utilization_factor] <;>
    norm_num


/-- Claim C10: a custom_tdp of 0 is falsy in `config.get('custom_tdp')
or gpu_spec.tdp_watts`, so the catalog TDP is used: the simulation with
custom_tdp = 0 coincides with the no-override simulation, and at the
default utilization 85 it yields a nonzero hourly power. -/
theorem C10_custom_tdp_zero :
    ∀ (g : GPUType) (w : WorkloadType),
      (∀ (u d : ℚ), simulate_workload_power ⟨g, w, u, d, some 0⟩
          = simulate_workload_power ⟨g, w, u, d, none⟩)
      ∧ 0 < (simulate_workload_power ⟨g, w, 85, 1, some 0⟩).hourly_power_kw := by
  intro g w
  exact ⟨fun u d => rfl, hourly_pos_85 g w⟩

/-! ## Claim theorems: KEPCO service -/

/-- Claim C2 (code bug): `analyze_datacenter_impact` tests region
membership against the top-level keys of the consumption response
rather than its `"regions"` sub-dict, so even regions present in the
snapshot (here both regions of the simulated snapshot) always fail with
the ValueError meant for unknown regions, and no ImpactReport is ever
produced. -/
theorem C2_impact_query_unreachable :
    (pv_lookup simulated_regions "서울특별시").isSome = true
    ∧ (pv_lookup simulated_regions "경기도").isSome = true
    ∧ (∀ mw : ℚ, analyze_datacenter_impact get_simulated_regional_data "서울특별시" mw
        = .error (.valueError "지원하지 않는 지역: 서울특별시"))
    ∧ (∀ mw : ℚ, analyze_datacenter_impact get_simulated_regional_data "경기도" mw
        = .error (.valueError "지원하지 않는 지역: 경기도")) :=
  ⟨rfl, rfl, fun _ => rfl, fun _ => rfl⟩

/-- Claim C3 (counterexample): with an empty comprehensive dataset,
`find_optimal_datacenter_locations(required_power_mw=100, top_n=5)`
returns the two-entry simulated backup list — not an empty list. -/
theorem C3_empty_data_counterexample :
    (find_optimal_datacenter_locations [] 100 5).length = 2
    ∧ find_optimal_datacenter_locations [] 100 5 ≠ [] :=
  ⟨rfl, fun h => Nat.noConfusion (congrArg List.length h)⟩

/-- Claim C3 (amended): when the comprehensive dataset is empty or
unavailable, the query falls back to the fixed simulated backup list
truncated to `top_n` (so it has min(top_n, 2) entries and is empty only
for top_n = 0), rather than returning an empty list. -/
theorem C3_empty_data_fallback :
    ∀ (required_power_mw : ℚ) (top_n : ℕ),
      find_optimal_datacenter_locations [] required_power_mw top_n
        = get_simulated_optimal_locations required_power_mw top_n
      ∧ (get_simulated_optimal_locations required_power_mw top_n).length
          = min top_n 2 := by
  intro r n
  refine ⟨rfl, ?_⟩
  unfold get_simulated_optimal_locations
  rw [List.length_take]
  rfl

/-! ## Claim theorems: regional scoring pipeline -/

/-- Claim C6: each scored region's infrastructure, cost-efficiency and
overall scores follow the documented formulas (rounded to 2 decimals,
weights 0.4 / 0.6), and the overall score is monotonically
non-decreasing in either component score with the other held fixed. -/
theorem C6_regional_scoring :
    ∀ rows : List RegionalStat, 0 < max_usage rows → 0 < max_price rows →
      (∀ s ∈ score_regions_table rows, ∃ r ∈ rows,
          s.infra_score = round_to 2 (r.usage_kwh / max_usage rows * 100)
          ∧ s.cost_score = round_to 2
              ((max_price rows - r.avg_price_krw_kwh) / max_price rows * 100)
          ∧ s.overall_score = overall_efficiency_score s.infra_score s.cost_score)
      ∧ (∀ i1 i2 c : ℚ, i1 ≤ i2 →
          overall_efficiency_score i1 c ≤ overall_efficiency_score i2 c)
      ∧ (∀ i c1 c2 : ℚ, c1 ≤ c2 →
          overall_efficiency_score i c1 ≤ overall_efficiency_score i c2) := by
  intro rows hU hP
  refine ⟨?_, ?_, ?_⟩
  · intro s hs
    rw [score_regions_table, List.mem_map] at hs
    obtain ⟨r, hr, rfl⟩ := hs
    exact ⟨r, hr, rfl, rfl, rfl⟩
  · intro i1 i2 c h
    unfold overall_efficiency_score
    apply round_to_mono
    linarith
  · intro i c1 c2 h
    unfold overall_efficiency_score
    apply round_to_mono
    linarith

/-- A concrete two-region table used to witness the scoring claims. -/
def demo_stats : List RegionalStat :=
  [⟨"경기도", 400, 150⟩, ⟨"세종특별자치시", 100, 120⟩]

/-- Witness for C6 on a concrete two-region table. -/
theorem C6_regional_scoring_witness :
    (∀ s ∈ score_regions_table demo_stats, ∃ r ∈ demo_stats,
        s.infra_score = round_to 2 (r.usage_kwh / max_usage demo_stats * 100)
        ∧ s.cost_score = round_to 2
            ((max_price demo_stats - r.avg_price_krw_kwh)
              / max_price demo_stats * 100)
        ∧ s.overall_score = overall_efficiency_score s.infra_score s.cost_score)
    ∧ (∀ i1 i2 c : ℚ, i1 ≤ i2 →
        overall_efficiency_score i1 c ≤ overall_efficiency_score i2 c)
    ∧ (∀ i c1 c2 : ℚ, c1 ≤ c2 →
        overall_efficiency_score i c1 ≤ overall_efficiency_score i c2) :=
  C6_regional_scoring demo_stats
    (by norm_num [max_usage, demo_stats, max_def])
    (by norm_num [max_price, demo_stats, max_def])

/-- Claim C7: the grade thresholds are exhaustive and non-overlapping on
[0,100]: S iff score ≥ 80, A iff 70 ≤ score < 80, B iff 60 ≤ score < 70,
C iff 50 ≤ score < 60, D iff score < 50. -/
theorem C7_grade_partition :
    ∀ s : ℚ, 0 ≤ s → s ≤ 100 →
      (get_datacenter_grade s = "S급 (최적)" ↔ 80 ≤ s)
      ∧ (get_datacenter_grade s = "A급 (우수)" ↔ 70 ≤ s ∧ s < 80)
      ∧ (get_datacenter_grade s = "B급 (양호)" ↔ 60 ≤ s ∧ s < 70)
      ∧ (get_datacenter_grade s = "C급 (보통)" ↔ 50 ≤ s ∧ s < 60)
      ∧ (get_datacenter_grade s = "D급 (부적합)" ↔ s < 50) := by
  intro s h0 h100
  unfold get_datacenter_grade
  split_ifs with h1 h2 h3 h4 <;>
    refine ⟨⟨?_, ?_⟩, ⟨?_, ?_⟩, ⟨?_, ?_⟩, ⟨?_, ?_⟩, ⟨?_, ?_⟩⟩ <;>
    intro hx <;>
    first
      | rfl
      | exact absurd hx (by decide)
      | linarith
      | exact ⟨by linarith, by linarith⟩

/-- Witness for C7 at score 75 (grade A). -/
theorem C7_grade_partition_witness :
    (get_datacenter_grade 75 = "S급 (최적)" ↔ 80 ≤ (75:ℚ))
    ∧ (get_datacenter_grade 75 = "A급 (우수)" ↔ 70 ≤ (75:ℚ) ∧ (75:ℚ) < 80)
    ∧ (get_datacenter_grade 75 = "B급 (양호)" ↔ 60 ≤ (75:ℚ) ∧ (75:ℚ) < 70)
    ∧ (get_datacenter_grade 75 = "C급 (보통)" ↔ 50 ≤ (75:ℚ) ∧ (75:ℚ) < 60)
    ∧ (get_datacenter_grade 75 = "D급 (부적합)" ↔ (75:ℚ) < 50) :=
  C7_grade_partition 75 (by norm_num) (by norm_num)

/-! ## Rank density lemmas -/

lemma filter_zip_range_of_sorted {α : Type} (key : α → ℚ) :
    ∀ (s : List α) (k : ℕ), List.Pairwise (fun a b => key b ≤ key a) s →
      ((s.zip (List.range' k s.length)).filter
          (fun p => decide (0 < key p.1))).map Prod.snd
        = List.range' k ((s.filter (fun x => decide (0 < key x))).length) := by
  intro s
  induction s with
  | nil => intro k _; rfl
  | cons x xs ih =>
    intro k h
    rw [List.pairwise_cons] at h
    obtain ⟨hx, hxs⟩ := h
    by_cases hpos : 0 < key x
    · have hd : decide (0 < key x) = true := by simpa using hpos
      rw [List.length_cons, List.range'_succ, List.zip_cons_cons,
        List.filter_cons, List.filter_cons]
      simp only [hd, if_true]
      rw [List.map_cons, ih (k + 1) hxs, List.length_cons, List.range'_succ]
    · have hall : ∀ y ∈ xs, ¬ 0 < key y := by
        intro y hy hc
        exact hpos (lt_of_lt_of_le hc (hx y hy))
      have hfr : (x :: xs).filter (fun y => decide (0 < key y)) = [] := by
        rw [List.filter_eq_nil_iff]
        intro a ha
        rcases List.mem_cons.1 ha with rfl | h'
        · simpa using hpos
        · simpa using hall a h'
      have hfl : ((x :: xs).zip
            (List.range' k (x :: xs).length)).filter
            (fun p => decide (0 < key p.1)) = [] := by
        rw [List.filter_eq_nil_iff]
        intro p hp
        obtain ⟨a, b⟩ := p
        have hmem := (List.of_mem_zip hp).1
        rcases List.mem_cons.1 hmem with rfl | h'
        · simpa using hpos
        · simpa using hall a h'
      rw [hfl, hfr]
      rfl

lemma rank_le_trans {α : Type} (key : α → ℚ) :
    ∀ (a b c : α), decide (key b ≤ key a) → decide (key c ≤ key b) →
      decide (key c ≤ key a) := by
  intro a b c h1 h2
  simp only [decide_eq_true_eq] at *
  exact le_trans h2 h1

lemma rank_le_total {α : Type} (key : α → ℚ) :
    ∀ (a b : α), decide (key b ≤ key a) || decide (key a ≤ key b) := by
  intro a b
  rcases le_total (key b) (key a) with h | h <;> simp [h]

lemma sorted_by_key {α : Type} (key : α → ℚ) (l : List α) :
    List.Pairwise (fun a b => key b ≤ key a)
      (l.mergeSort (fun a b => decide (key b ≤ key a))) := by
  have h := @List.sorted_mergeSort _ (fun a b => decide (key b ≤ key a))
    (rank_le_trans key) (rank_le_total key) l
  exact h.imp (fun hab => by simpa using hab)

/-- Claim C8: on any non-empty input, the efficiency-rank column is
exactly 1..N (dense, no gaps or duplicates) in descending order of
overall score, and the usage-rank column after dropping zero-usage
regions is exactly 1..M for the M retained regions. -/
theorem C8_rank_dense :
    ∀ rows : List RegionalStat, rows ≠ [] →
      (efficiency_rank_table rows).map Prod.snd = List.range' 1 rows.length
      ∧ List.Pairwise (fun a b => b.1.overall_score ≤ a.1.overall_score)
          (efficiency_rank_table rows)
      ∧ (usage_rank_table rows).map Prod.snd
          = List.range' 1
              ((rows.filter (fun r => decide (0 < r.usage_kwh))).length) := by
  intro rows _
  refine ⟨?_, ?_, ?_⟩
  · unfold efficiency_rank_table
    rw [List.map_snd_zip _ _ (by simp)]
    simp [score_regions_table]
  · unfold efficiency_rank_table
    have hs := sorted_by_key (fun s : ScoredRegion => s.overall_score)
      (score_regions_table rows)
    have hlen : ((score_regions_table rows).mergeSort
          (fun a b => decide (b.overall_score ≤ a.overall_score))).length
        ≤ (List.range' 1 ((score_regions_table rows).mergeSort
            (fun a b => decide (b.overall_score ≤ a.overall_score))).length).length := by
      simp
    have hfst := List.map_fst_zip
      ((score_regions_table rows).mergeSort
        (fun a b => decide (b.overall_score ≤ a.overall_score)))
      (List.range' 1 ((score_regions_table rows).mergeSort
        (fun a b => decide (b.overall_score ≤ a.overall_score))).length)
      hlen
    rw [← hfst] at hs
    exact List.pairwise_map.1 hs
  · unfold usage_rank_table
    have hs := sorted_by_key (fun r : RegionalStat => r.usage_kwh) rows
    have h := filter_zip_range_of_sorted (fun r : RegionalStat => r.usage_kwh)
      (rows.mergeSort (fun a b => decide (b.usage_kwh ≤ a.usage_kwh))) 1 hs
    have hperm : ((rows.mergeSort
          (fun a b => decide (b.usage_kwh ≤ a.usage_kwh))).filter
          (fun x => decide (0 < x.usage_kwh))).length
        = (rows.filter (fun r => decide (0 < r.usage_kwh))).length :=
      ((List.mergeSort_perm rows _).filter _).length_eq
    exact h.trans (by rw [hperm])

/-- Witness for C8 on a concrete two-region table. -/
theorem C8_rank_dense_witness :
    (efficiency_rank_table demo_stats).map Prod.snd
        = List.range' 1 demo_stats.length
    ∧ List.Pairwise (fun a b => b.1.overall_score ≤ a.1.overall_score)
        (efficiency_rank_table demo_stats)
    ∧ (usage_rank_table demo_stats).map Prod.snd
        = List.range' 1
            ((demo_stats.filter (fun r => decide (0 < r.usage_kwh))).length) :=
  C8_rank_dense demo_stats (by simp [demo_stats])

end AIDCPower
